import Mathlib

/-!
Shallow embedding of the asynchronous job-orchestration layer of the
cbp-ai-service FastAPI backend, together with theorems settling the frozen
claims about it.

Conventions used throughout the embedding:
* Database tables are Lean lists of records; UUID columns are modelled as
  natural numbers; SQL NULL is `Option.none`.
* Every external call (Gemini LLM, embedding model, vector store) is supplied
  as an explicit outcome parameter, so a pipeline is a pure function of its
  inputs and the adapters' behaviours.
* A Python `async` function that is called WITHOUT `await` (and without being
  handed to a task scheduler) merely builds a coroutine object that is never
  executed; such call sites are embedded as no-ops, with a comment at the spot.
* DB-managed timestamp columns (`created_at` / `updated_at`) are omitted: they
  are set by the store, never read by the orchestration logic.
-/

namespace CourseRec

/-- Status enum of `models/course_recommendation.py` (`RecommendationStatus`). -/
inductive RecommendationStatus
  | IN_PROGRESS
  | COMPLETED
  | FAILED
deriving DecidableEq, Repr

/-- One course object inside `filtered_courses`.  The JSON dicts produced by
the LLM carry many fields; the orchestration code only ever inspects
`identifier`, overwrites `is_public` and the three metadata fields, and passes
the rest through, so the remaining fields are collapsed into `payload`. -/
structure CourseEntry where
  identifier : String
  payload : String
  is_public : Bool
  competencies : Option String
  duration : Option String
  organisation : Option String
deriving DecidableEq, Repr

/-- One row of the vector-search result stored in `actual_courses`
(name, identifier, distance).  Distances are abstracted to `Int`: the code
never computes with them, it only stores them. -/
structure VectorCourse where
  name : String
  identifier : String
  distance : Int
deriving DecidableEq, Repr

/-- The `recommended_courses` table row (`models/course_recommendation.py`). -/
structure RecommendedCourse where
  id : Nat
  user_id : Nat
  role_mapping_id : Nat
  status : RecommendationStatus
  error_message : Option String
  vector_query : String
  embedding : Option (List Int)
  actual_courses : List VectorCourse
  filtered_courses : List CourseEntry
deriving DecidableEq, Repr

/-- The recommendation store plus the id the next `create` will assign. -/
structure CRState where
  records : List RecommendedCourse
  nextId : Nat
deriving DecidableEq, Repr

/-- CRUDRecommendedCourse.get_by_role_mapping_id: first record matching the
role-mapping id and user id (the SQL uses `.limit(1)`). -/
def get_by_role_mapping_id (recs : List RecommendedCourse)
    (role_mapping_id user_id : Nat) : Option RecommendedCourse :=
  recs.find? (fun r => r.role_mapping_id == role_mapping_id && r.user_id == user_id)

/-- CRUDRecommendedCourse.create: new IN_PROGRESS row with placeholder data
(`vector_query=""`, empty course lists, embedding left NULL). -/
def crud_create (st : CRState) (user_id role_mapping_id : Nat) :
    RecommendedCourse × CRState :=
  let rec0 : RecommendedCourse :=
    { id := st.nextId
      user_id := user_id
      role_mapping_id := role_mapping_id
      status := RecommendationStatus.IN_PROGRESS
      error_message := none
      vector_query := ""
      embedding := none
      actual_courses := []
      filtered_courses := [] }
  (rec0, { records := st.records ++ [rec0], nextId := st.nextId + 1 })

/-- CRUDRecommendedCourse.update_status_and_data: write the final results and
set the status to COMPLETED (the SQL `values(...)` clause touches exactly these
five columns). -/
def update_status_and_data (recs : List RecommendedCourse) (recommendation_id : Nat)
    (query_text : String) (embedding_values : Option (List Int))
    (actual_courses : List VectorCourse) (final_filtered_courses : List CourseEntry) :
    List RecommendedCourse :=
  recs.map (fun r =>
    if r.id == recommendation_id then
      { r with
        vector_query := query_text
        embedding := embedding_values
        actual_courses := actual_courses
        filtered_courses := final_filtered_courses
        status := RecommendationStatus.COMPLETED }
    else r)

/-- CRUDRecommendedCourse.update_status_to_failed. -/
def update_status_to_failed (recs : List RecommendedCourse) (recommendation_id : Nat)
    (error_message : String) : List RecommendedCourse :=
  recs.map (fun r =>
    if r.id == recommendation_id then
      { r with
        status := RecommendationStatus.FAILED
        error_message := some error_message }
    else r)

/-- Result of the POST /course-recommendations/generate handler: HTTP status
code, the record serialized in the response, the store afterwards, and the ids
bound to background tasks scheduled by this call. -/
structure GenOutcome where
  statusCode : Nat
  record : RecommendedCourse
  state : CRState
  scheduled : List Nat
deriving DecidableEq, Repr

/-- Embedding of `generate_course_recommendations`
(api/v1/course_recommendation.py).  The role-mapping existence check (404) is
outside the modelled behaviour: we start from the idempotency lookup. -/
def generate_course_recommendations (st : CRState) (role_mapping_id user_id : Nat) :
    GenOutcome :=
  match get_by_role_mapping_id st.records role_mapping_id user_id with
  | some existing =>
    match existing.status with
    | RecommendationStatus.IN_PROGRESS =>
      { statusCode := 202, record := existing, state := st, scheduled := [] }
    | RecommendationStatus.COMPLETED =>
      { statusCode := 201, record := existing, state := st, scheduled := [] }
    | RecommendationStatus.FAILED =>
      -- The source runs `db.delete(existing_recommendation)` and `db.commit()`
      -- with no `await`: both methods of the SQLAlchemy AsyncSession are
      -- coroutine functions, so the two coroutine objects are created and
      -- discarded without ever executing.  The FAILED row is NOT removed;
      -- control falls through to the creation of the fresh record.
      let created := crud_create st user_id role_mapping_id
      { statusCode := 202, record := created.1, state := created.2,
        scheduled := [created.1.id] }
  | none =>
      let created := crud_create st user_id role_mapping_id
      { statusCode := 202, record := created.1, state := created.2,
        scheduled := [created.1.id] }

/-- Outcome of the `generate_vector_query` Gemini call. -/
inductive QueryOutcome
  | raises (msg : String)
  | ok (text : String)
deriving DecidableEq, Repr

/-- Outcome of the Gemini `embed_content` call inside `get_embedding`:
either it raises or it returns a list of embedding objects (each carrying its
`values` vector). -/
inductive EmbedAdapterOutcome
  | raises
  | ok (embeddings : List (List Int))
deriving DecidableEq, Repr

/-- Python's `not text.strip()`: true iff the string has no non-whitespace
character. -/
def isBlankText (s : String) : Bool :=
  s.data.all (fun c => c.isWhitespace)

/-- Embedding of `get_embedding` (api/v1/course_recommendation.py): blank input
text yields `[]`; an adapter exception is swallowed and yields `[]`; otherwise
the adapter's embeddings are returned. -/
def get_embedding (adapter : EmbedAdapterOutcome) (text : String) : List (List Int) :=
  if isBlankText text then []
  else
    match adapter with
    | EmbedAdapterOutcome.raises => []
    | EmbedAdapterOutcome.ok embeddings => embeddings

/-- Outcome of the `get_filtered_courses_by_llm` call followed by the
`json.loads` of its text (step 7 of the task): the call can raise, the parse
can raise, or a list of course dicts is obtained. -/
inductive FilterLlmOutcome
  | raises (msg : String)
  | badJson (msg : String)
  | ok (courses : List CourseEntry)
deriving DecidableEq, Repr

/-- One row of `course_metadata_v2` as fetched by `fetch_course_metadata`. -/
structure CourseMetadataRow where
  identifier : String
  competencies_v6 : String
  duration : String
  organisation : String
deriving DecidableEq, Repr

/-- The external behaviours consumed by one run of the recommendation task. -/
structure RecTaskEnv where
  queryOutcome : QueryOutcome
  embedOutcome : EmbedAdapterOutcome
  vectorRows : List (String × String × Int)
  filterOutcome : FilterLlmOutcome
  generalCourses : List CourseEntry
  metadata : List CourseMetadataRow
deriving DecidableEq, Repr

/-- Result of one run of `process_recommendation_task`: the store afterwards
and how many similarity-search queries (`fetch_vector_search_courses`) were
issued against the vector store. -/
structure RecTaskResult where
  records : List RecommendedCourse
  vectorStoreCalls : Nat
deriving DecidableEq, Repr

/-- Embedding of `process_recommendation_task` (api/v1/course_recommendation.py).
`get_general_courses_from_gemini` catches its own exceptions and degrades to
`[]`, so its behaviour is just the list `env.generalCourses`; a failure of the
sibling `get_filtered_courses_by_llm` branch (or of the subsequent
`json.loads`) propagates out of `asyncio.gather` and is converted to FAILED by
the outer handler. -/
def process_recommendation_task (recs : List RecommendedCourse) (env : RecTaskEnv)
    (recommendation_id : Nat) : RecTaskResult :=
  match recs.find? (fun r => r.id == recommendation_id) with
  | none => { records := recs, vectorStoreCalls := 0 }
  | some _ =>
    match env.queryOutcome with
    | QueryOutcome.raises msg =>
      { records := update_status_to_failed recs recommendation_id msg
        vectorStoreCalls := 0 }
    | QueryOutcome.ok query_text =>
      match get_embedding env.embedOutcome query_text with
      | [] =>
        -- `raise Exception("Failed to generate embeddings")`, caught by the
        -- outer handler before any vector-store access.
        { records := update_status_to_failed recs recommendation_id
            "Failed to generate embeddings"
          vectorStoreCalls := 0 }
      | embedding_values :: _ =>
        let courses := env.vectorRows.map (fun row =>
          { name := row.1, identifier := row.2.1, distance := row.2.2 : VectorCourse })
        match env.filterOutcome with
        | FilterLlmOutcome.raises msg =>
          { records := update_status_to_failed recs recommendation_id msg
            vectorStoreCalls := 1 }
        | FilterLlmOutcome.badJson msg =>
          { records := update_status_to_failed recs recommendation_id msg
            vectorStoreCalls := 1 }
        | FilterLlmOutcome.ok filtered_courses =>
          let enriched := filtered_courses.map (fun c =>
            match env.metadata.find? (fun row => row.identifier == c.identifier) with
            | some row =>
              { c with
                is_public := false
                competencies := some row.competencies_v6
                duration := some row.duration
                organisation := some row.organisation }
            | none =>
              { c with
                is_public := false
                competencies := none
                duration := none
                organisation := none })
          let final_filtered_courses := enriched ++ env.generalCourses
          { records := update_status_and_data recs recommendation_id query_text
              (some embedding_values) courses final_filtered_courses
            vectorStoreCalls := 1 }

/-- The `suggested_courses` row consulted by step 2 of `delete_course`. -/
structure SuggestedCourseRec where
  id : Nat
  role_mapping_id : Nat
  user_id : Nat
  course_identifiers : List String
deriving DecidableEq, Repr

/-- The `user_added_courses` row consulted by step 3 of `delete_course`. -/
structure UserAddedCourseRec where
  role_mapping_id : Nat
  user_id : Nat
  identifier : String
  name : String
deriving DecidableEq, Repr

/-- The three stores touched by `delete_course`. -/
structure CourseStores where
  records : List RecommendedCourse
  suggestions : List SuggestedCourseRec
  user_added : List UserAddedCourseRec
deriving DecidableEq, Repr

/-- Response of the DELETE .../course/{course_id} handler. -/
inductive DeleteCourseOutcome
  | conflict
  | deletedRecommendation (remaining_courses : Nat)
  | deletedSuggestion (remaining_courses : Nat)
  | deletedUserAdded (name : String)
  | notFound
deriving DecidableEq, Repr

/-- Embedding of `delete_course` (api/v1/course_recommendation.py): try the
recommendation record first, then suggestions, then user-added courses. -/
def delete_course (st : CourseStores) (course_id : String)
    (role_mapping_id user_id : Nat) : DeleteCourseOutcome × CourseStores :=
  let userAddedMatch := fun (c : UserAddedCourseRec) =>
    c.role_mapping_id == role_mapping_id && c.identifier == course_id &&
      c.user_id == user_id
  let step3 : DeleteCourseOutcome × CourseStores :=
    match st.user_added.find? userAddedMatch with
    | some db_course =>
      (DeleteCourseOutcome.deletedUserAdded db_course.name,
        { st with user_added := st.user_added.filter (fun c => !(userAddedMatch c)) })
    | none => (DeleteCourseOutcome.notFound, st)
  let step2 : DeleteCourseOutcome × CourseStores :=
    match st.suggestions.find? (fun s =>
        s.role_mapping_id == role_mapping_id && s.user_id == user_id) with
    | some suggested =>
      if course_id ∈ suggested.course_identifiers then
        let course_identifiers := suggested.course_identifiers.filter
          (fun i => i != course_id)
        (DeleteCourseOutcome.deletedSuggestion course_identifiers.length,
          { st with suggestions := st.suggestions.map (fun s =>
              if s.id == suggested.id then
                { s with course_identifiers := course_identifiers }
              else s) })
      else step3
    | none => step3
  match get_by_role_mapping_id st.records role_mapping_id user_id with
  | some recommendation =>
    if recommendation.filtered_courses.any (fun c => c.identifier == course_id) then
      if recommendation.status == RecommendationStatus.IN_PROGRESS then
        (DeleteCourseOutcome.conflict, st)
      else
        let filtered_courses := recommendation.filtered_courses.filter
          (fun c => c.identifier != course_id)
        (DeleteCourseOutcome.deletedRecommendation filtered_courses.length,
          { st with records := (update_status_and_data st.records recommendation.id
              recommendation.vector_query recommendation.embedding
              recommendation.actual_courses filtered_courses) })
    else step2
  | none => step2

end CourseRec

namespace RoleMap

/-- Status enum of `models/role_mapping.py` (`ProcessingStatus`). -/
inductive ProcessingStatus
  | PENDING
  | IN_PROGRESS
  | COMPLETED
  | FAILED
deriving DecidableEq, Repr

/-- One competency dict inside a generated FRAC mapping. -/
structure Competency where
  ctype : String
  theme : String
  sub_theme : String
  source : String
deriving DecidableEq, Repr

/-- One FRAC mapping dict produced by a Pass-2 LLM batch.  The task reads the
fields with `dict.get`, which yields `None` for a missing key, hence every
field is an `Option`. -/
structure FracData where
  designation_name : Option String
  wing_division_section : Option String
  role_responsibilities : Option (List String)
  activities : Option (List String)
  competencies : Option (List Competency)
  sort_order : Option Int
deriving DecidableEq, Repr

/-- The `role_mappings` table row (`models/role_mapping.py`). -/
structure RoleMappingRec where
  id : Nat
  user_id : Nat
  org_type : String
  state_center_id : String
  department_id : Option String
  state_center_name : String
  department_name : Option String
  instruction : Option String
  status : ProcessingStatus
  error_message : Option String
  designation_name : Option String
  wing_division_section : Option String
  role_responsibilities : Option (List String)
  activities : Option (List String)
  competencies : Option (List Competency)
  sort_order : Option Int
deriving DecidableEq, Repr

/-- The role-mapping store plus the id the next insert will assign. -/
structure RMState where
  records : List RoleMappingRec
  nextId : Nat
deriving DecidableEq, Repr

/-- The owner-scope filter shared by the CRUD queries: state-center id, user
id, and the department condition.  Python truthiness on `department_id` means
that both `None` and the empty string select rows whose department column IS
NULL. -/
def matchesScope (state_center_id : String) (user_id : Nat)
    (department_id : Option String) (r : RoleMappingRec) : Bool :=
  r.state_center_id == state_center_id && r.user_id == user_id &&
    (match department_id with
     | some d =>
       if d.isEmpty then r.department_id == none else r.department_id == some d
     | none => r.department_id == none)

/-- Sort key used by the CRUD queries ordering on `sort_order`.  A NULL key is
placed first under `ORDER BY ... DESC` and last under ascending order in
PostgreSQL, which is exactly the behaviour of `⊤` for this key. -/
def sortKey (r : RoleMappingRec) : WithTop Int :=
  match r.sort_order with
  | none => ⊤
  | some n => (n : WithTop Int)

/-- Helper for `get_all_mapping`: the first stored row among those with the
greatest sort key (the SQL orders by `sort_order DESC` and takes one row; the
tie order is unspecified in SQL, we fix earliest-stored). -/
def pickTopBySortKey : List RoleMappingRec → Option RoleMappingRec
  | [] => none
  | r :: t =>
    match pickTopBySortKey t with
    | none => some r
    | some b => if sortKey r < sortKey b then some b else some r

/-- CRUDRoleMapping.get_all_mapping: one row for the owner scope, ordered by
`sort_order DESC`, `LIMIT 1`. -/
def get_all_mapping (recs : List RoleMappingRec) (state_center_id : String)
    (user_id : Nat) (department_id : Option String) : Option RoleMappingRec :=
  pickTopBySortKey (recs.filter (matchesScope state_center_id user_id department_id))

/-- CRUDRoleMapping.get_all_completed_mapping: all COMPLETED rows for the
owner scope, ordered by `sort_order` ascending. -/
def get_all_completed_mapping (recs : List RoleMappingRec) (state_center_id : String)
    (user_id : Nat) (department_id : Option String) : List RoleMappingRec :=
  (recs.filter (fun r => matchesScope state_center_id user_id department_id r &&
      r.status == ProcessingStatus.COMPLETED)).insertionSort
    (fun a b => sortKey a ≤ sortKey b)

/-- CRUDRoleMapping.delete_existing_mappings: remove every row for the owner
scope (this one IS awaited in the source). -/
def delete_existing_mappings (recs : List RoleMappingRec) (state_center_id : String)
    (user_id : Nat) (department_id : Option String) : List RoleMappingRec :=
  recs.filter (fun r => !(matchesScope state_center_id user_id department_id r))

/-- Result of the POST /role-mapping/generate handler (v3): HTTP status code,
the three fields of `RoleMappingBackgroundResponse` that survive validation
(`is_existing` is not declared on the schema and is dropped), the store
afterwards, and the placeholder ids bound to scheduled background tasks. -/
structure RMGenOutcome where
  statusCode : Nat
  message : String
  respStatus : ProcessingStatus
  role_mappings : List RoleMappingRec
  state : RMState
  scheduled : List Nat
deriving DecidableEq, Repr

/-- Embedding of `generate_role_mapping` (api/v3/role_mappings.py), from the
idempotency lookup onwards. -/
def generate_role_mapping_endpoint (st : RMState) (user_id : Nat) (org_type : String)
    (state_center_id : String) (department_id : Option String)
    (state_center_name : String) (department_name instruction : Option String) :
    RMGenOutcome :=
  let create : RMState → RMGenOutcome := fun st0 =>
    let placeholder : RoleMappingRec :=
      { id := st0.nextId
        user_id := user_id
        org_type := org_type
        state_center_id := state_center_id
        department_id := department_id
        state_center_name := state_center_name
        department_name := department_name
        instruction := instruction
        status := ProcessingStatus.IN_PROGRESS
        error_message := none
        designation_name := some "Generating..."
        wing_division_section := some "Generating..."
        role_responsibilities := some []
        activities := some []
        competencies := some []
        sort_order := none }
    { statusCode := 202
      message := "Role mapping generation started in background."
      respStatus := ProcessingStatus.IN_PROGRESS
      role_mappings := []
      state := { records := st0.records ++ [placeholder], nextId := st0.nextId + 1 }
      scheduled := [placeholder.id] }
  match get_all_mapping st.records state_center_id user_id department_id with
  | some existing =>
    if existing.status == ProcessingStatus.IN_PROGRESS then
      { statusCode := 202
        message := "Generation is already IN PROGRESS for this State/Center."
        respStatus := ProcessingStatus.IN_PROGRESS
        role_mappings := []
        state := st
        scheduled := [] }
    else if existing.status == ProcessingStatus.COMPLETED then
      { statusCode := 201
        message := "Role mapping generated successfully"
        respStatus := ProcessingStatus.COMPLETED
        role_mappings := get_all_completed_mapping st.records state_center_id
          user_id department_id
        state := st
        scheduled := [] }
    else if existing.status == ProcessingStatus.FAILED then
      create { st with
        records := delete_existing_mappings st.records state_center_id
          user_id department_id }
    else
      create st
  | none => create st

/-- One extracted designation from Pass 1. -/
structure Designation where
  sort_order : Int
  designation : String
deriving DecidableEq, Repr

/-- Outcome of Pass 1 (`_extract_designations`): the method re-raises on any
adapter exception, empty response, or schema-validation failure, so either it
raises or it yields the extracted designation list. -/
inductive Pass1Outcome
  | raises
  | ok (designations : List Designation)
deriving DecidableEq, Repr

/-- Outcome of one Pass-2 batch LLM call, as seen by
`_generate_frac_for_batch`: the call itself raises, the response text is
empty, the cleaned text fails `json.loads`, or a list of FRAC dicts parses. -/
inductive BatchLlmOutcome
  | raises (msg : String)
  | emptyText
  | badJson (msg : String)
  | ok (mappings : List FracData)
deriving DecidableEq, Repr

/-- Embedding of `_generate_frac_for_batch`
(services/v3/role_mapping_service.py): every failure mode is caught and
degraded to the empty list; a parsed response is returned as-is. -/
def generate_frac_for_batch (llm : Nat → List Designation → BatchLlmOutcome)
    (designations_batch : List Designation) (batch_number : Nat) : List FracData :=
  match llm batch_number designations_batch with
  | BatchLlmOutcome.ok mappings => mappings
  | BatchLlmOutcome.raises _ => []
  | BatchLlmOutcome.emptyText => []
  | BatchLlmOutcome.badJson _ => []

/-- The batch split `[all_designations[i:i+batch_size] for i in
range(0, len(all_designations), batch_size)]`, with `i = j * batch_size`.
The service only calls this with a positive batch size. -/
def chunks (l : List Designation) (batch_size : Nat) : List (List Designation) :=
  (List.range ((l.length + batch_size - 1) / batch_size)).map
    (fun j => (l.drop (j * batch_size)).take batch_size)

/-- Embedding of `_process_batches_parallel`: fan out one
`_generate_frac_for_batch` per batch (batch numbers start at 1) and
concatenate the per-batch results in batch order.  The `isinstance(result,
list)` guard of the fan-in loop is always true here since every batch returns
a list. -/
def process_batches_parallel (llm : Nat → List Designation → BatchLlmOutcome)
    (all_designations : List Designation) (batch_size : Nat) : List FracData :=
  let batches := chunks all_designations batch_size
  let batch_results := batches.enum.map
    (fun p => generate_frac_for_batch llm p.2 (p.1 + 1))
  batch_results.foldl (fun acc r => acc ++ r) []

/-- Result of `RoleMappingService.generate_role_mapping`: the coroutine either
raises or returns the combined FRAC list. -/
inductive ServiceResult
  | raised
  | returned (mappings : List FracData)
deriving DecidableEq, Repr

/-- Embedding of `RoleMappingService.generate_role_mapping`
(services/v3/role_mapping_service.py), paired with the number of Pass-2 LLM
calls it issues (one per batch; the early return on an empty Pass-1 result
issues none).  Pass 2 runs with `batch_size=30`. -/
def service_generate_role_mapping (pass1 : Pass1Outcome)
    (llm : Nat → List Designation → BatchLlmOutcome) : ServiceResult × Nat :=
  match pass1 with
  | Pass1Outcome.raises => (ServiceResult.raised, 0)
  | Pass1Outcome.ok designations =>
    if designations.isEmpty then (ServiceResult.returned [], 0)
    else
      (ServiceResult.returned (process_batches_parallel llm designations 30),
        (chunks designations 30).length)

/-- Helper shared by the task's updates: CRUDRoleMapping.update on one row. -/
def updateRM (recs : List RoleMappingRec) (role_mapping_id : Nat)
    (f : RoleMappingRec → RoleMappingRec) : List RoleMappingRec :=
  recs.map (fun r => if r.id == role_mapping_id then f r else r)

/-- The request data the background task carries (everything it needs after
the HTTP response has been sent). -/
structure TaskCtx where
  user_id : Nat
  org_type : String
  state_center_id : String
  state_center_name : String
  department_id : Option String
  department_name : Option String
  instruction : Option String
deriving DecidableEq, Repr

/-- Embedding of `process_role_mapping_task` (api/v3/role_mappings.py) given
the service call's result.  A raised service call was already converted to
`None` by the task's inner `except`, and `if not generated_data_list` treats
`None` and `[]` alike: both update the placeholder to FAILED with the fixed
message.  Otherwise the placeholder becomes the first generated record and the
remaining records are inserted as COMPLETED siblings. -/
def process_role_mapping_task (st : RMState) (placeholder_id : Nat) (ctx : TaskCtx)
    (svc : ServiceResult) : RMState :=
  match st.records.find? (fun r => r.id == placeholder_id) with
  | none => st
  | some _ =>
    let generated_data_list : Option (List FracData) :=
      match svc with
      | ServiceResult.raised => none
      | ServiceResult.returned l => some l
    match generated_data_list with
    | none =>
      { st with records := updateRM st.records placeholder_id (fun r =>
          { r with
            status := ProcessingStatus.FAILED
            error_message := some "AI Service returned no role mappings." }) }
    | some [] =>
      { st with records := updateRM st.records placeholder_id (fun r =>
          { r with
            status := ProcessingStatus.FAILED
            error_message := some "AI Service returned no role mappings." }) }
    | some (first_record_data :: rest) =>
      let updated := updateRM st.records placeholder_id (fun r =>
        { r with
          status := ProcessingStatus.COMPLETED
          designation_name := first_record_data.designation_name
          wing_division_section := first_record_data.wing_division_section
          role_responsibilities := first_record_data.role_responsibilities
          activities := first_record_data.activities
          competencies := first_record_data.competencies
          sort_order := first_record_data.sort_order
          error_message := none })
      let new_mappings := rest.enum.map (fun p =>
        { id := st.nextId + p.1
          user_id := ctx.user_id
          org_type := ctx.org_type
          state_center_id := ctx.state_center_id
          department_id := ctx.department_id
          state_center_name := ctx.state_center_name
          department_name := ctx.department_name
          instruction := ctx.instruction
          status := ProcessingStatus.COMPLETED
          error_message := none
          designation_name := p.2.designation_name
          wing_division_section := p.2.wing_division_section
          role_responsibilities := p.2.role_responsibilities
          activities := p.2.activities
          competencies := p.2.competencies
          sort_order := p.2.sort_order : RoleMappingRec })
      { records := updated ++ new_mappings, nextId := st.nextId + rest.length }

/-- One whole background run: the task body around the service call (the
inner `try/except` maps a raised service call to `None`, which
`process_role_mapping_task` then receives). -/
def run_role_mapping_job (st : RMState) (placeholder_id : Nat) (ctx : TaskCtx)
    (pass1 : Pass1Outcome) (llm : Nat → List Designation → BatchLlmOutcome) :
    RMState :=
  process_role_mapping_task st placeholder_id ctx
    (service_generate_role_mapping pass1 llm).1

end RoleMap

namespace Docs

/-- The `documents` table row (`models/document.py`).  Note the model's
primary key is `file_id`; the model declares NO column named `id`. -/
structure Document where
  file_id : Nat
  state_center_id : String
  department_id : Option String
  filename : String
  stored_path : String
  summary_status : String
  summary_text : Option String
  summary_error : Option String
  last_summary_request_id : Option Nat
deriving DecidableEq, Repr

/-- The `meta_summaries` table row (`models/meta_summary.py`).  The JSONB
`file_ids` column stores document ids. -/
structure MetaSummaryRec where
  request_id : Nat
  state_center_id : Option String
  department_id : Option String
  file_ids : List Nat
  status : String
  summary_text : Option String
  error_message : Option String
deriving DecidableEq, Repr

/-- The document store together with the list of file ids handed to
`background_tasks.add_task(_run_document_summary, ...)` so far. -/
structure DocTriggerState where
  docs : List Document
  scheduled : List Nat
deriving DecidableEq, Repr

/-- Helper: CRUDDocument.update restricted to one row. -/
def updateDoc (docs : List Document) (file_id : Nat) (f : Document → Document) :
    List Document :=
  docs.map (fun d => if d.file_id == file_id then f d else d)

/-- Response of the POST /files/{file_id}/summary handler. -/
inductive TriggerResult
  | notFound
  | ok (summary_status : String)
deriving DecidableEq, Repr

/-- Embedding of `trigger_summary` (api/v1/document_routes.py).  `freshReq`
stands for the `uuid.uuid4()` drawn during the call.  While the summary is
IN_PROGRESS or COMPLETED the handler only backfills a missing
`last_summary_request_id` and reports the current status, scheduling nothing;
otherwise it stamps the document, schedules `_run_document_summary`, and
reports IN_PROGRESS. -/
def trigger_summary (st : DocTriggerState) (file_id freshReq : Nat) :
    TriggerResult × DocTriggerState :=
  match st.docs.find? (fun d => d.file_id == file_id) with
  | none => (TriggerResult.notFound, st)
  | some doc =>
    if doc.summary_status == "IN_PROGRESS" || doc.summary_status == "COMPLETED" then
      let docs2 :=
        if doc.last_summary_request_id == none then
          updateDoc st.docs file_id (fun d =>
            { d with last_summary_request_id := some freshReq })
        else st.docs
      (TriggerResult.ok doc.summary_status, { st with docs := docs2 })
    else
      let docs2 := updateDoc st.docs file_id (fun d =>
        { d with
          last_summary_request_id := some freshReq
          summary_status := "NOT_STARTED" })
      (TriggerResult.ok "IN_PROGRESS",
        { docs := docs2, scheduled := st.scheduled ++ [file_id] })

/-- The document and meta-summary stores as seen by the meta-summary task and
by file deletion. -/
structure MetaState where
  docs : List Document
  metas : List MetaSummaryRec
deriving DecidableEq, Repr

/-- Helper: CRUDMetaSummary.update restricted to one row (keyed by
`request_id`). -/
def updateMeta (metas : List MetaSummaryRec) (request_id : Nat)
    (f : MetaSummaryRec → MetaSummaryRec) : List MetaSummaryRec :=
  metas.map (fun m => if m.request_id == request_id then f m else m)

/-- Python's `str` applied to an optional text (f-strings render `None` as the
string "None"). -/
def pyStr (o : Option String) : String :=
  match o with
  | none => "None"
  | some s => s

/-- Outcome of the single meta-summary Gemini call. -/
inductive MetaLlmOutcome
  | raises (msg : String)
  | ok (text : String)
deriving DecidableEq, Repr

/-- Result of the dependency walk over `batch.file_ids` in
`_run_meta_summary`. -/
inductive MetaLoopResult
  | docMissing
  | attrError
  | parts (l : List String)
deriving DecidableEq, Repr

/-- The per-document dependency walk of `_run_meta_summary`
(api/v1/meta_summary_routes.py), processing file ids in order:
* a missing document stops the walk (the meta record is then FAILED);
* for a document whose `summary_status` is "FAILED" or "NOT_STARTED" the
  source evaluates `_run_document_summary(doc.file_id)` with no `await`: the
  coroutine object is discarded unexecuted, so the document pipeline neither
  runs nor gets scheduled — no state change is performed here;
* for any document whose status is not "COMPLETED" the source then builds the
  FAILED update whose f-string reads `doc.id` — but the Document model has no
  `id` attribute, so an AttributeError is raised before the update executes
  and escapes to the task's outermost handler;
* a COMPLETED document contributes its summary block. -/
def metaDocsLoop (docs : List Document) : List Nat → MetaLoopResult
  | [] => MetaLoopResult.parts []
  | fid :: rest =>
    match docs.find? (fun d => d.file_id == fid) with
    | none => MetaLoopResult.docMissing
    | some doc =>
      if doc.summary_status != "COMPLETED" then
        MetaLoopResult.attrError
      else
        match metaDocsLoop docs rest with
        | MetaLoopResult.parts l =>
          MetaLoopResult.parts
            (("--- " ++ doc.filename ++ " (" ++ toString doc.file_id ++ ") ---\n"
              ++ pyStr doc.summary_text ++ "\n") :: l)
        | r => r

/-- Embedding of `_run_meta_summary` (api/v1/meta_summary_routes.py).  The
missing-document branch stores the malformed literal string of the source
(the f prefix was accidentally quoted).  When the dependency walk raises the
AttributeError described at `metaDocsLoop`, the outer `except` only logs, so
the meta record is left exactly as the walk found it: IN_PROGRESS. -/
def run_meta_summary (st : MetaState) (request_id : Nat) (llm : MetaLlmOutcome) :
    MetaState :=
  match st.metas.find? (fun m => m.request_id == request_id) with
  | none => st
  | some batch =>
    if batch.status == "IN_PROGRESS" || batch.status == "COMPLETED" then st
    else
      let metas1 := updateMeta st.metas request_id (fun m =>
        { m with status := "IN_PROGRESS" })
      match metaDocsLoop st.docs batch.file_ids with
      | MetaLoopResult.docMissing =>
        { st with metas := updateMeta metas1 request_id (fun m =>
            { m with
              status := "FAILED"
              error_message := some "f\"Document {fid} not found\"" }) }
      | MetaLoopResult.attrError =>
        { st with metas := metas1 }
      | MetaLoopResult.parts _ =>
        match llm with
        | MetaLlmOutcome.ok text =>
          if text.isEmpty then
            -- raise RuntimeError("Empty meta summary returned"), caught by
            -- the inner except which records str(e).
            { st with metas := updateMeta metas1 request_id (fun m =>
                { m with
                  status := "FAILED"
                  summary_text := none
                  error_message := some "Empty meta summary returned" }) }
          else
            { st with metas := updateMeta metas1 request_id (fun m =>
                { m with
                  status := "COMPLETED"
                  summary_text := some text
                  error_message := none }) }
        | MetaLlmOutcome.raises msg =>
          { st with metas := updateMeta metas1 request_id (fun m =>
              { m with
                status := "FAILED"
                summary_text := none
                error_message := some msg }) }

/-- Response of the DELETE /files/{file_id} handler. -/
inductive DeleteFileOutcome
  | notFound
  | conflict
  | deleted (deleted_meta_summaries : List Nat)
deriving DecidableEq, Repr

/-- The per-meta-summary cleanup step of `delete_file`: drop the deleted file
id from `file_ids`; a meta summary left with no files is removed outright,
any other affected one is reset to PENDING with its texts cleared. -/
def cleanupMeta (fid : Nat) (m : MetaSummaryRec) : Option MetaSummaryRec :=
  if fid ∈ m.file_ids then
    let updated_file_ids := m.file_ids.filter (fun x => x != fid)
    if updated_file_ids.isEmpty then none
    else
      some { m with
        file_ids := updated_file_ids
        status := "PENDING"
        summary_text := none
        error_message := none }
  else some m

/-- Embedding of `delete_file` (api/v1/document_routes.py): refuse while the
summary is IN_PROGRESS; otherwise delete the stored blob (storage failures
are only logged, so storage is not modelled), clean up every meta summary
referencing the file, and delete the document row. -/
def delete_file (st : MetaState) (fid : Nat) : DeleteFileOutcome × MetaState :=
  match st.docs.find? (fun d => d.file_id == fid) with
  | none => (DeleteFileOutcome.notFound, st)
  | some doc =>
    if doc.summary_status == "IN_PROGRESS" then (DeleteFileOutcome.conflict, st)
    else
      let deleted := ((st.metas.filter (fun m =>
          decide (fid ∈ m.file_ids) &&
            (m.file_ids.filter (fun x => x != fid)).isEmpty)).map
        (fun m => m.request_id))
      (DeleteFileOutcome.deleted deleted,
        { docs := st.docs.filter (fun d => d.file_id != fid)
          metas := st.metas.filterMap (cleanupMeta fid) })

end Docs

/-! Shared helper definitions and lemmas for the claim theorems. -/

/-- Boolean test: does the character list `s` start with `p`? -/
def charsStartWith : List Char → List Char → Bool
  | [], _ => true
  | _ :: _, [] => false
  | p :: ps, c :: cs => p == c && charsStartWith ps cs

/-- Boolean test: does the character list contain `pat` as a contiguous run? -/
def charsContain (pat : List Char) : List Char → Bool
  | [] => charsStartWith pat []
  | c :: cs => charsStartWith pat (c :: cs) || charsContain pat cs

/-- Substring test on strings (used to state "the error message contains
the word ..."). -/
def strContains (s pat : String) : Bool :=
  charsContain pat.data s.data

/-- Rows produced by CourseRec.update_status_to_failed that carry the target
id are FAILED with the recorded message. -/
theorem update_status_to_failed_spec (recs : List CourseRec.RecommendedCourse)
    (rid : Nat) (msg : String) :
    ∀ r ∈ CourseRec.update_status_to_failed recs rid msg, r.id = rid →
      r.status = CourseRec.RecommendationStatus.FAILED
        ∧ r.error_message = some msg := by
  intro r hr hid
  unfold CourseRec.update_status_to_failed at hr
  obtain ⟨a, ha, rfl⟩ := List.mem_map.mp hr
  by_cases h : (a.id == rid) = true
  · simp [h]
  · simp only [h, if_false] at hid ⊢
    exact absurd (beq_iff_eq.mpr hid) (by simpa using h)

/-- Rows produced by RoleMap.updateRM that carry the target id are the image
of a stored row under the update. -/
theorem updateRM_spec (recs : List RoleMap.RoleMappingRec) (pid : Nat)
    (f : RoleMap.RoleMappingRec → RoleMap.RoleMappingRec) :
    ∀ r ∈ RoleMap.updateRM recs pid f, r.id = pid →
      ∃ a ∈ recs, r = f a := by
  intro r hr hid
  unfold RoleMap.updateRM at hr
  obtain ⟨a, ha, rfl⟩ := List.mem_map.mp hr
  by_cases h : (a.id == pid) = true
  · simpa [h] using ⟨a, ha, by simp [h]⟩
  · simp only [h, if_false] at hid ⊢
    exact absurd (beq_iff_eq.mpr hid) (by simpa using h)

/-! Claim C1. -/

/-- A concrete IN_PROGRESS role-mapping row used for claim C1. -/
def recRM_C1 : RoleMap.RoleMappingRec :=
  { id := 7
    user_id := 1
    org_type := "ministry"
    state_center_id := "sc1"
    department_id := none
    state_center_name := "Centre"
    department_name := none
    instruction := none
    status := RoleMap.ProcessingStatus.IN_PROGRESS
    error_message := none
    designation_name := some "Generating..."
    wing_division_section := some "Generating..."
    role_responsibilities := some []
    activities := some []
    competencies := some []
    sort_order := none }

/-- C1 counterexample: with the owner scope ("sc1", user 1, no department)
holding the IN_PROGRESS record with id 7, the v3 role-mapping generate
endpoint answers with an empty `role_mappings` list — the response carries no
record id at all, so it does not return the existing record's id as the claim
states (the response type has only message/status/role_mappings fields). -/
theorem C1_counterexample :
    RoleMap.get_all_mapping [recRM_C1] "sc1" 1 none = some recRM_C1
    ∧ recRM_C1.status = RoleMap.ProcessingStatus.IN_PROGRESS
    ∧ (RoleMap.generate_role_mapping_endpoint ⟨[recRM_C1], 8⟩ 1 "ministry" "sc1"
        none "Centre" none none).role_mappings = []
    ∧ (RoleMap.generate_role_mapping_endpoint ⟨[recRM_C1], 8⟩ 1 "ministry" "sc1"
        none "Centre" none none).respStatus = RoleMap.ProcessingStatus.IN_PROGRESS := by
  decide

/-- C1 (amended): while a record for the owner key is IN_PROGRESS, a second
generate call is deduplicated on both endpoints: no record is created, no
background task is scheduled, and the IN_PROGRESS status is reported; the
course-recommendation endpoint additionally returns the existing record
itself (id and status), while the role-mapping endpoint's response carries no
record id. -/
theorem C1_in_progress_dedup
    (crSt : CourseRec.CRState) (rmId uid : Nat) (ex : CourseRec.RecommendedCourse)
    (hfind : CourseRec.get_by_role_mapping_id crSt.records rmId uid = some ex)
    (hst : ex.status = CourseRec.RecommendationStatus.IN_PROGRESS)
    (rmSt : RoleMap.RMState) (uid2 : Nat) (ot scid scname : String)
    (dep dn ins : Option String) (ex2 : RoleMap.RoleMappingRec)
    (hfind2 : RoleMap.get_all_mapping rmSt.records scid uid2 dep = some ex2)
    (hst2 : ex2.status = RoleMap.ProcessingStatus.IN_PROGRESS) :
    ((CourseRec.generate_course_recommendations crSt rmId uid).record = ex
      ∧ (CourseRec.generate_course_recommendations crSt rmId uid).state = crSt
      ∧ (CourseRec.generate_course_recommendations crSt rmId uid).scheduled = []
      ∧ (CourseRec.generate_course_recommendations crSt rmId uid).statusCode = 202)
    ∧ ((RoleMap.generate_role_mapping_endpoint rmSt uid2 ot scid dep scname dn
          ins).respStatus = RoleMap.ProcessingStatus.IN_PROGRESS
      ∧ (RoleMap.generate_role_mapping_endpoint rmSt uid2 ot scid dep scname dn
          ins).state = rmSt
      ∧ (RoleMap.generate_role_mapping_endpoint rmSt uid2 ot scid dep scname dn
          ins).scheduled = []
      ∧ (RoleMap.generate_role_mapping_endpoint rmSt uid2 ot scid dep scname dn
          ins).role_mappings = []) := by
  constructor
  · simp [CourseRec.generate_course_recommendations, hfind, hst]
  · simp only [RoleMap.generate_role_mapping_endpoint, hfind2, hst2]
    simp

/-- A concrete IN_PROGRESS recommendation row used for claim C1's witness. -/
def recIP_C1 : CourseRec.RecommendedCourse :=
  { id := 4
    user_id := 1
    role_mapping_id := 2
    status := CourseRec.RecommendationStatus.IN_PROGRESS
    error_message := none
    vector_query := ""
    embedding := none
    actual_courses := []
    filtered_courses := [] }

/-- Witness for C1_in_progress_dedup at concrete stores. -/
theorem C1_in_progress_dedup_witness :
    (CourseRec.get_by_role_mapping_id [recIP_C1] 2 1 = some recIP_C1
      ∧ recIP_C1.status = CourseRec.RecommendationStatus.IN_PROGRESS
      ∧ RoleMap.get_all_mapping [recRM_C1] "sc1" 1 none = some recRM_C1
      ∧ recRM_C1.status = RoleMap.ProcessingStatus.IN_PROGRESS)
    ∧ (((CourseRec.generate_course_recommendations ⟨[recIP_C1], 9⟩ 2 1).record = recIP_C1
        ∧ (CourseRec.generate_course_recommendations ⟨[recIP_C1], 9⟩ 2 1).state
            = ⟨[recIP_C1], 9⟩
        ∧ (CourseRec.generate_course_recommendations ⟨[recIP_C1], 9⟩ 2 1).scheduled = []
        ∧ (CourseRec.generate_course_recommendations ⟨[recIP_C1], 9⟩ 2 1).statusCode = 202)
      ∧ ((RoleMap.generate_role_mapping_endpoint ⟨[recRM_C1], 8⟩ 1 "ministry" "sc1" none
            "Centre" none none).respStatus = RoleMap.ProcessingStatus.IN_PROGRESS
        ∧ (RoleMap.generate_role_mapping_endpoint ⟨[recRM_C1], 8⟩ 1 "ministry" "sc1" none
            "Centre" none none).state = ⟨[recRM_C1], 8⟩
        ∧ (RoleMap.generate_role_mapping_endpoint ⟨[recRM_C1], 8⟩ 1 "ministry" "sc1" none
            "Centre" none none).scheduled = []
        ∧ (RoleMap.generate_role_mapping_endpoint ⟨[recRM_C1], 8⟩ 1 "ministry" "sc1" none
            "Centre" none none).role_mappings = [])) :=
  ⟨⟨by decide, by decide, by decide, by decide⟩,
    C1_in_progress_dedup ⟨[recIP_C1], 9⟩ 2 1 recIP_C1 (by decide) (by decide)
      ⟨[recRM_C1], 8⟩ 1 "ministry" "sc1" "Centre" none none none recRM_C1
      (by decide) (by decide)⟩

/-! Claim C2. -/

/-- A concrete FAILED recommendation row used for claim C2. -/
def recF_C2 : CourseRec.RecommendedCourse :=
  { id := 3
    user_id := 1
    role_mapping_id := 2
    status := CourseRec.RecommendationStatus.FAILED
    error_message := some "upstream failure"
    vector_query := ""
    embedding := none
    actual_courses := []
    filtered_courses := [] }

/-- C2: after a generate call against a store whose only record for the owner
key is FAILED, the stale FAILED record is still present (the source's
`db.delete` / `db.commit` coroutines are never awaited) while a fresh
IN_PROGRESS record with a new id has been added — the store now holds two
records for the same owner key instead of the claimed clean slate. -/
theorem C2_stale_failed_record_not_deleted :
    recF_C2 ∈ (CourseRec.generate_course_recommendations ⟨[recF_C2], 5⟩ 2 1).state.records
    ∧ (CourseRec.generate_course_recommendations ⟨[recF_C2], 5⟩ 2 1).state.records.length = 2
    ∧ (CourseRec.generate_course_recommendations ⟨[recF_C2], 5⟩ 2 1).record.id = 5
    ∧ (CourseRec.generate_course_recommendations ⟨[recF_C2], 5⟩ 2 1).record.status
        = CourseRec.RecommendationStatus.IN_PROGRESS
    ∧ (CourseRec.generate_course_recommendations ⟨[recF_C2], 5⟩ 2 1).scheduled = [5] := by
  decide

/-! Claim C6. -/

/-- A concrete never-summarized document referenced by the meta job of C6. -/
def docNS_C6 : Docs.Document :=
  { file_id := 1
    state_center_id := "sc"
    department_id := none
    filename := "a.pdf"
    stored_path := "files/a.pdf"
    summary_status := "NOT_STARTED"
    summary_text := none
    summary_error := none
    last_summary_request_id := none }

/-- A concrete pending meta-summary batch referencing document 1. -/
def metaPend_C6 : Docs.MetaSummaryRec :=
  { request_id := 10
    state_center_id := some "sc"
    department_id := none
    file_ids := [1]
    status := "PENDING"
    summary_text := none
    error_message := none }

/-- C6: running the meta-summary task over a batch whose one referenced
document has summary_status NOT_STARTED leaves the document untouched (its
own summarization pipeline is never started: the `_run_document_summary`
coroutine is built without `await` and discarded) and leaves the meta record
stuck at IN_PROGRESS with no error message — it is not marked FAILED, because
evaluating `doc.id` in the failure message raises an AttributeError that the
outermost handler swallows. -/
theorem C6_dependency_failure_leaves_meta_in_progress :
    Docs.run_meta_summary ⟨[docNS_C6], [metaPend_C6]⟩ 10 (Docs.MetaLlmOutcome.ok "t")
      = ⟨[docNS_C6], [{ metaPend_C6 with status := "IN_PROGRESS" }]⟩ := by
  decide

/-! Claim C3. -/

/-- C3: while the owner key's record is COMPLETED, both generate endpoints
answer 201 with the materialized payload (the record itself, resp. the
COMPLETED mappings of the scope), create no record and schedule no task. -/
theorem C3_completed_cache_hit
    (crSt : CourseRec.CRState) (rmId uid : Nat) (ex : CourseRec.RecommendedCourse)
    (hfind : CourseRec.get_by_role_mapping_id crSt.records rmId uid = some ex)
    (hst : ex.status = CourseRec.RecommendationStatus.COMPLETED)
    (rmSt : RoleMap.RMState) (uid2 : Nat) (ot scid scname : String)
    (dep dn ins : Option String) (ex2 : RoleMap.RoleMappingRec)
    (hfind2 : RoleMap.get_all_mapping rmSt.records scid uid2 dep = some ex2)
    (hst2 : ex2.status = RoleMap.ProcessingStatus.COMPLETED) :
    ((CourseRec.generate_course_recommendations crSt rmId uid).statusCode = 201
      ∧ (CourseRec.generate_course_recommendations crSt rmId uid).record = ex
      ∧ (CourseRec.generate_course_recommendations crSt rmId uid).state = crSt
      ∧ (CourseRec.generate_course_recommendations crSt rmId uid).scheduled = [])
    ∧ ((RoleMap.generate_role_mapping_endpoint rmSt uid2 ot scid dep scname dn
          ins).statusCode = 201
      ∧ (RoleMap.generate_role_mapping_endpoint rmSt uid2 ot scid dep scname dn
          ins).role_mappings
          = RoleMap.get_all_completed_mapping rmSt.records scid uid2 dep
      ∧ (RoleMap.generate_role_mapping_endpoint rmSt uid2 ot scid dep scname dn
          ins).state = rmSt
      ∧ (RoleMap.generate_role_mapping_endpoint rmSt uid2 ot scid dep scname dn
          ins).scheduled = []) := by
  constructor
  · simp [CourseRec.generate_course_recommendations, hfind, hst]
  · have h1 : (ex2.status == RoleMap.ProcessingStatus.IN_PROGRESS) = false := by
      rw [hst2]; decide
    have h2 : (ex2.status == RoleMap.ProcessingStatus.COMPLETED) = true := by
      rw [hst2]; decide
    simp [RoleMap.generate_role_mapping_endpoint, hfind2, h1, h2]

/-- A concrete course entry used in claim C3's witness payload. -/
def entryA_C3 : CourseRec.CourseEntry :=
  { identifier := "a"
    payload := "pa"
    is_public := false
    competencies := none
    duration := none
    organisation := none }

/-- A concrete COMPLETED recommendation row used for claim C3's witness. -/
def recC_C3 : CourseRec.RecommendedCourse :=
  { id := 4
    user_id := 1
    role_mapping_id := 2
    status := CourseRec.RecommendationStatus.COMPLETED
    error_message := none
    vector_query := "q"
    embedding := some [1, 2]
    actual_courses := []
    filtered_courses := [entryA_C3] }

/-- A concrete COMPLETED role-mapping row used for claim C3's witness. -/
def recRMC_C3 : RoleMap.RoleMappingRec :=
  { id := 11
    user_id := 1
    org_type := "state"
    state_center_id := "sc2"
    department_id := none
    state_center_name := "State"
    department_name := none
    instruction := none
    status := RoleMap.ProcessingStatus.COMPLETED
    error_message := none
    designation_name := some "Secretary"
    wing_division_section := some "Admin"
    role_responsibilities := some ["r1"]
    activities := some ["a1"]
    competencies := some []
    sort_order := some 1 }

/-- Witness for C3_completed_cache_hit at concrete stores. -/
theorem C3_completed_cache_hit_witness :
    (CourseRec.get_by_role_mapping_id [recC_C3] 2 1 = some recC_C3
      ∧ recC_C3.status = CourseRec.RecommendationStatus.COMPLETED
      ∧ RoleMap.get_all_mapping [recRMC_C3] "sc2" 1 none = some recRMC_C3
      ∧ recRMC_C3.status = RoleMap.ProcessingStatus.COMPLETED)
    ∧ (((CourseRec.generate_course_recommendations ⟨[recC_C3], 9⟩ 2 1).statusCode = 201
        ∧ (CourseRec.generate_course_recommendations ⟨[recC_C3], 9⟩ 2 1).record = recC_C3
        ∧ (CourseRec.generate_course_recommendations ⟨[recC_C3], 9⟩ 2 1).state
            = ⟨[recC_C3], 9⟩
        ∧ (CourseRec.generate_course_recommendations ⟨[recC_C3], 9⟩ 2 1).scheduled = [])
      ∧ ((RoleMap.generate_role_mapping_endpoint ⟨[recRMC_C3], 12⟩ 1 "state" "sc2" none
            "State" none none).statusCode = 201
        ∧ (RoleMap.generate_role_mapping_endpoint ⟨[recRMC_C3], 12⟩ 1 "state" "sc2" none
            "State" none none).role_mappings
            = RoleMap.get_all_completed_mapping [recRMC_C3] "sc2" 1 none
        ∧ (RoleMap.generate_role_mapping_endpoint ⟨[recRMC_C3], 12⟩ 1 "state" "sc2" none
            "State" none none).state = ⟨[recRMC_C3], 12⟩
        ∧ (RoleMap.generate_role_mapping_endpoint ⟨[recRMC_C3], 12⟩ 1 "state" "sc2" none
            "State" none none).scheduled = [])) :=
  ⟨⟨by decide, by decide, by decide, by decide⟩,
    C3_completed_cache_hit ⟨[recC_C3], 9⟩ 2 1 recC_C3 (by decide) (by decide)
      ⟨[recRMC_C3], 12⟩ 1 "state" "sc2" "State" none none none recRMC_C3
      (by decide) (by decide)⟩

/-! Claim C5. -/

/-- C5: an empty Pass-1 extraction short-circuits the service with zero Pass-2
batch calls, and the job record then transitions to FAILED with the fixed
message; the same FAILED state and message result from any empty combined
generation result. -/
theorem C5_empty_pass1_fails_without_pass2
    (llm : Nat → List RoleMap.Designation → RoleMap.BatchLlmOutcome) :
    RoleMap.service_generate_role_mapping (RoleMap.Pass1Outcome.ok []) llm
      = (RoleMap.ServiceResult.returned [], 0)
    ∧ (∀ (st : RoleMap.RMState) (pid : Nat) (ctx : RoleMap.TaskCtx)
        (r0 : RoleMap.RoleMappingRec),
        st.records.find? (fun r => r.id == pid) = some r0 →
        ∀ r ∈ (RoleMap.run_role_mapping_job st pid ctx
            (RoleMap.Pass1Outcome.ok []) llm).records,
          r.id = pid →
            r.status = RoleMap.ProcessingStatus.FAILED
            ∧ r.error_message = some "AI Service returned no role mappings.")
    ∧ (∀ (st : RoleMap.RMState) (pid : Nat) (ctx : RoleMap.TaskCtx)
        (r0 : RoleMap.RoleMappingRec),
        st.records.find? (fun r => r.id == pid) = some r0 →
        ∀ r ∈ (RoleMap.process_role_mapping_task st pid ctx
            (RoleMap.ServiceResult.returned [])).records,
          r.id = pid →
            r.status = RoleMap.ProcessingStatus.FAILED
            ∧ r.error_message = some "AI Service returned no role mappings.") := by
  refine ⟨rfl, ?_, ?_⟩ <;>
  · intro st pid ctx r0 hfind r hr hid
    simp only [RoleMap.run_role_mapping_job, RoleMap.service_generate_role_mapping,
      RoleMap.process_role_mapping_task, hfind, List.isEmpty_nil] at hr
    obtain ⟨a, _, rfl⟩ := updateRM_spec _ _ _ r hr hid
    exact ⟨rfl, rfl⟩

/-- A concrete IN_PROGRESS placeholder row used for claim C5's witness. -/
def rmRec_C5 : RoleMap.RoleMappingRec :=
  { recRM_C1 with id := 3 }

/-- A concrete task context used for claim C5's witness. -/
def ctx_C5 : RoleMap.TaskCtx :=
  { user_id := 1
    org_type := "ministry"
    state_center_id := "sc1"
    state_center_name := "Centre"
    department_id := none
    department_name := none
    instruction := none }

/-- Witness for C5_empty_pass1_fails_without_pass2 at a concrete store: the
placeholder 3 ends FAILED with the fixed message. -/
theorem C5_empty_pass1_witness :
    ([rmRec_C5].find? (fun r => r.id == 3) = some rmRec_C5)
    ∧ ({ rmRec_C5 with
          status := RoleMap.ProcessingStatus.FAILED
          error_message := some "AI Service returned no role mappings." }
        ∈ (RoleMap.run_role_mapping_job ⟨[rmRec_C5], 9⟩ 3 ctx_C5
            (RoleMap.Pass1Outcome.ok [])
            (fun _ _ => RoleMap.BatchLlmOutcome.emptyText)).records)
    ∧ ({ rmRec_C5 with
          status := RoleMap.ProcessingStatus.FAILED
          error_message := some "AI Service returned no role mappings." }.status
        = RoleMap.ProcessingStatus.FAILED
      ∧ { rmRec_C5 with
          status := RoleMap.ProcessingStatus.FAILED
          error_message := some "AI Service returned no role mappings." }.error_message
        = some "AI Service returned no role mappings.") :=
  ⟨by decide, by decide,
    (C5_empty_pass1_fails_without_pass2
        (fun _ _ => RoleMap.BatchLlmOutcome.emptyText)).2.1
      ⟨[rmRec_C5], 9⟩ 3 ctx_C5 rmRec_C5 (by decide) _ (by decide) (by decide)⟩

/-! Claim C7. -/

/-- C7: when the vector query succeeds but the embedding step yields nothing,
the recommendation task makes zero vector-store calls and marks the record
FAILED with the message "Failed to generate embeddings", which contains the
word "embedding". -/
theorem C7_empty_embedding_fails_before_vector_store
    (recs : List CourseRec.RecommendedCourse) (env : CourseRec.RecTaskEnv)
    (rid : Nat) (r0 : CourseRec.RecommendedCourse) (query_text : String)
    (hfind : recs.find? (fun r => r.id == rid) = some r0)
    (hq : env.queryOutcome = CourseRec.QueryOutcome.ok query_text)
    (hemb : CourseRec.get_embedding env.embedOutcome query_text = []) :
    (CourseRec.process_recommendation_task recs env rid).vectorStoreCalls = 0
    ∧ (∀ r ∈ (CourseRec.process_recommendation_task recs env rid).records,
        r.id = rid →
          r.status = CourseRec.RecommendationStatus.FAILED
          ∧ r.error_message = some "Failed to generate embeddings")
    ∧ strContains "Failed to generate embeddings" "embedding" = true := by
  refine ⟨?_, ?_, by decide⟩ <;>
    simp only [CourseRec.process_recommendation_task, hfind, hq, hemb]
  intro r hr hid
  exact update_status_to_failed_spec _ _ _ r hr hid

/-- A concrete IN_PROGRESS recommendation row used for claim C7's witness. -/
def recIP_C7 : CourseRec.RecommendedCourse :=
  { recIP_C1 with id := 6 }

/-- A concrete task environment whose embedding adapter raises (so
`get_embedding` returns the empty list). -/
def env_C7 : CourseRec.RecTaskEnv :=
  { queryOutcome := CourseRec.QueryOutcome.ok "profile query"
    embedOutcome := CourseRec.EmbedAdapterOutcome.raises
    vectorRows := [("n", "i", 0)]
    filterOutcome := CourseRec.FilterLlmOutcome.ok []
    generalCourses := []
    metadata := [] }

/-- Witness for C7_empty_embedding_fails_before_vector_store at a concrete
store and environment. -/
theorem C7_empty_embedding_witness :
    ([recIP_C7].find? (fun r => r.id == 6) = some recIP_C7
      ∧ env_C7.queryOutcome = CourseRec.QueryOutcome.ok "profile query"
      ∧ CourseRec.get_embedding env_C7.embedOutcome "profile query" = [])
    ∧ ((CourseRec.process_recommendation_task [recIP_C7] env_C7 6).vectorStoreCalls = 0
      ∧ ({ recIP_C7 with
            status := CourseRec.RecommendationStatus.FAILED
            error_message := some "Failed to generate embeddings" }
          ∈ (CourseRec.process_recommendation_task [recIP_C7] env_C7 6).records)
      ∧ ({ recIP_C7 with
            status := CourseRec.RecommendationStatus.FAILED
            error_message := some "Failed to generate embeddings" }.status
          = CourseRec.RecommendationStatus.FAILED)
      ∧ strContains "Failed to generate embeddings" "embedding" = true) :=
  ⟨⟨by decide, by decide, by decide⟩,
    (C7_empty_embedding_fails_before_vector_store [recIP_C7] env_C7 6 recIP_C7
        "profile query" (by decide) (by decide) (by decide)).1,
    by decide,
    ((C7_empty_embedding_fails_before_vector_store [recIP_C7] env_C7 6 recIP_C7
        "profile query" (by decide) (by decide) (by decide)).2.1 _ (by decide)
      (by decide)).1,
    (C7_empty_embedding_fails_before_vector_store [recIP_C7] env_C7 6 recIP_C7
        "profile query" (by decide) (by decide) (by decide)).2.2⟩

/-! Claim C9. -/

/-- Pointwise status preservation lifts through Docs.updateDoc. -/
theorem updateDoc_map_summary_status (docs : List Docs.Document) (fid : Nat)
    (f : Docs.Document → Docs.Document)
    (h : ∀ d, (f d).summary_status = d.summary_status) :
    (Docs.updateDoc docs fid f).map (fun d => d.summary_status)
      = docs.map (fun d => d.summary_status) := by
  unfold Docs.updateDoc
  rw [List.map_map]
  apply List.map_congr_left
  intro a _
  by_cases hc : a.file_id = fid <;> simp [Function.comp, beq_iff_eq, hc, h]

/-- C9: the summary trigger is idempotent — while the document is IN_PROGRESS
or COMPLETED it reports the current status and schedules nothing (no document
status changes either); while it is NOT_STARTED or FAILED it schedules the
summarization pipeline for that document. -/
theorem C9_trigger_summary_idempotent
    (st : Docs.DocTriggerState) (fid freshReq : Nat) (doc : Docs.Document)
    (hfind : st.docs.find? (fun d => d.file_id == fid) = some doc) :
    ((doc.summary_status = "IN_PROGRESS" ∨ doc.summary_status = "COMPLETED") →
      (Docs.trigger_summary st fid freshReq).1 = Docs.TriggerResult.ok doc.summary_status
      ∧ (Docs.trigger_summary st fid freshReq).2.scheduled = st.scheduled
      ∧ (Docs.trigger_summary st fid freshReq).2.docs.map (fun d => d.summary_status)
          = st.docs.map (fun d => d.summary_status))
    ∧ ((doc.summary_status = "NOT_STARTED" ∨ doc.summary_status = "FAILED") →
      (Docs.trigger_summary st fid freshReq).2.scheduled = st.scheduled ++ [fid]
      ∧ (Docs.trigger_summary st fid freshReq).1 = Docs.TriggerResult.ok "IN_PROGRESS") := by
  constructor
  · intro h
    have hc : (doc.summary_status == "IN_PROGRESS"
        || doc.summary_status == "COMPLETED") = true := by
      rcases h with h | h <;> rw [h] <;> decide
    refine ⟨?_, ?_, ?_⟩ <;>
      simp only [Docs.trigger_summary, hfind, hc, if_true]
    by_cases hb : (doc.last_summary_request_id == none) = true
    · simp only [hb, if_true]
      exact updateDoc_map_summary_status _ _ _ (fun d => rfl)
    · simp [hb]
  · intro h
    have hc : (doc.summary_status == "IN_PROGRESS"
        || doc.summary_status == "COMPLETED") = false := by
      rcases h with h | h <;> rw [h] <;> decide
    simp [Docs.trigger_summary, hfind, hc]

/-- A concrete COMPLETED document used for claim C9's witness. -/
def docC_C9 : Docs.Document :=
  { file_id := 2
    state_center_id := "sc"
    department_id := none
    filename := "b.pdf"
    stored_path := "files/b.pdf"
    summary_status := "COMPLETED"
    summary_text := some "summary"
    summary_error := none
    last_summary_request_id := some 77 }

/-- Witness for C9_trigger_summary_idempotent at a concrete store holding a
COMPLETED document. -/
theorem C9_trigger_summary_witness :
    ([docC_C9].find? (fun d => d.file_id == 2) = some docC_C9)
    ∧ (((docC_C9.summary_status = "IN_PROGRESS" ∨ docC_C9.summary_status = "COMPLETED") →
        (Docs.trigger_summary ⟨[docC_C9], [5]⟩ 2 99).1
            = Docs.TriggerResult.ok docC_C9.summary_status
        ∧ (Docs.trigger_summary ⟨[docC_C9], [5]⟩ 2 99).2.scheduled = [5]
        ∧ (Docs.trigger_summary ⟨[docC_C9], [5]⟩ 2 99).2.docs.map
              (fun d => d.summary_status)
            = [docC_C9].map (fun d => d.summary_status))
      ∧ ((docC_C9.summary_status = "NOT_STARTED" ∨ docC_C9.summary_status = "FAILED") →
        (Docs.trigger_summary ⟨[docC_C9], [5]⟩ 2 99).2.scheduled = [5] ++ [2]
        ∧ (Docs.trigger_summary ⟨[docC_C9], [5]⟩ 2 99).1
            = Docs.TriggerResult.ok "IN_PROGRESS")) :=
  ⟨by decide, C9_trigger_summary_idempotent ⟨[docC_C9], [5]⟩ 2 99 docC_C9 (by decide)⟩

/-! Claim C4. -/

/-- C4: a Pass-2 batch whose LLM call raises, returns empty text, or is
unparsable contributes an empty list; the fan-in over three batches whose
middle one fails equals the concatenation of the two successful batches'
lists in batch order, its length is the sum of their lengths, and when that
merged result is non-empty the background job still ends COMPLETED rather
than FAILED. -/
theorem C4_partial_batch_resilience
    (llm : Nat → List RoleMap.Designation → RoleMap.BatchLlmOutcome)
    (ds b1 b2 b3 : List RoleMap.Designation) (r1 r3 : List RoleMap.FracData)
    (hchunk : RoleMap.chunks ds 30 = [b1, b2, b3])
    (h1 : llm 1 b1 = RoleMap.BatchLlmOutcome.ok r1)
    (h2 : (∃ msg, llm 2 b2 = RoleMap.BatchLlmOutcome.raises msg)
        ∨ llm 2 b2 = RoleMap.BatchLlmOutcome.emptyText
        ∨ (∃ msg, llm 2 b2 = RoleMap.BatchLlmOutcome.badJson msg))
    (h3 : llm 3 b3 = RoleMap.BatchLlmOutcome.ok r3) :
    RoleMap.generate_frac_for_batch llm b2 2 = []
    ∧ RoleMap.process_batches_parallel llm ds 30 = r1 ++ r3
    ∧ (RoleMap.process_batches_parallel llm ds 30).length = r1.length + r3.length
    ∧ (∀ (st : RoleMap.RMState) (pid : Nat) (ctx : RoleMap.TaskCtx)
        (r0 : RoleMap.RoleMappingRec),
        st.records.find? (fun r => r.id == pid) = some r0 →
        r1 ++ r3 ≠ [] →
        ∀ r ∈ (RoleMap.run_role_mapping_job st pid ctx
            (RoleMap.Pass1Outcome.ok ds) llm).records,
          r.id = pid → r.status = RoleMap.ProcessingStatus.COMPLETED) := by
  have hg1 : RoleMap.generate_frac_for_batch llm b1 1 = r1 := by
    unfold RoleMap.generate_frac_for_batch; rw [h1]
  have hg3 : RoleMap.generate_frac_for_batch llm b3 3 = r3 := by
    unfold RoleMap.generate_frac_for_batch; rw [h3]
  have hg2 : RoleMap.generate_frac_for_batch llm b2 2 = [] := by
    unfold RoleMap.generate_frac_for_batch
    rcases h2 with ⟨msg, hm⟩ | hm | ⟨msg, hm⟩ <;> rw [hm]
  have hmain : RoleMap.process_batches_parallel llm ds 30 = r1 ++ r3 := by
    unfold RoleMap.process_batches_parallel
    rw [hchunk]
    have he : ([b1, b2, b3]).enum = [(0, b1), (1, b2), (2, b3)] := rfl
    simp only [he, List.map_cons, List.map_nil, List.foldl_cons, List.foldl_nil,
      List.nil_append]
    show ((RoleMap.generate_frac_for_batch llm b1 1
        ++ RoleMap.generate_frac_for_batch llm b2 2)
        ++ RoleMap.generate_frac_for_batch llm b3 3) = r1 ++ r3
    rw [hg1, hg2, hg3]
    simp
  have hds : ds.isEmpty = false := by
    cases hd : ds with
    | nil =>
      rw [hd] at hchunk
      simp [RoleMap.chunks] at hchunk
    | cons a t => rfl
  refine ⟨hg2, hmain, by rw [hmain]; simp, ?_⟩
  intro st pid ctx r0 hfind hne r hr hid
  have hsvc : RoleMap.service_generate_role_mapping (RoleMap.Pass1Outcome.ok ds) llm
      = (RoleMap.ServiceResult.returned (r1 ++ r3), (RoleMap.chunks ds 30).length) := by
    simp [RoleMap.service_generate_role_mapping, hds, hmain]
  cases hcons : r1 ++ r3 with
  | nil => exact absurd hcons hne
  | cons first_record_data rest =>
    rw [hcons] at hsvc
    simp only [RoleMap.run_role_mapping_job, hsvc,
      RoleMap.process_role_mapping_task, hfind] at hr
    rcases List.mem_append.mp hr with hl | hrr
    · obtain ⟨a, _, rfl⟩ := updateRM_spec _ _ _ r hl hid
      rfl
    · obtain ⟨p, _, rfl⟩ := List.mem_map.mp hrr
      rfl

/-- FRAC payload produced by batch 1 in claim C4's witness. -/
def fd1_C4 : RoleMap.FracData :=
  { designation_name := some "Director"
    wing_division_section := some "Admin"
    role_responsibilities := some ["r"]
    activities := some ["a"]
    competencies := some []
    sort_order := some 1 }

/-- FRAC payload produced by batch 3 in claim C4's witness. -/
def fd3_C4 : RoleMap.FracData :=
  { designation_name := some "Clerk"
    wing_division_section := some "Office"
    role_responsibilities := some ["r3"]
    activities := some ["a3"]
    competencies := some []
    sort_order := some 61 }

/-- One designation value replicated to fill the witness batches. -/
def desig_C4 : RoleMap.Designation :=
  { sort_order := 1, designation := "Director" }

/-- A 61-designation extraction result, so Pass 2 splits into 3 batches of
sizes 30, 30, 1. -/
def ds_C4 : List RoleMap.Designation :=
  List.replicate 61 desig_C4

/-- The batch oracle of claim C4's witness: batch 2 raises, batches 1 and 3
succeed with one mapping each. -/
def llm_C4 (n : Nat) (_ : List RoleMap.Designation) : RoleMap.BatchLlmOutcome :=
  if n == 2 then RoleMap.BatchLlmOutcome.raises "llm boom"
  else if n == 1 then RoleMap.BatchLlmOutcome.ok [fd1_C4]
  else RoleMap.BatchLlmOutcome.ok [fd3_C4]

/-- The placeholder row after the C4 witness job: first result merged in,
status COMPLETED. -/
def updated_C4 : RoleMap.RoleMappingRec :=
  { rmRec_C5 with
    status := RoleMap.ProcessingStatus.COMPLETED
    designation_name := some "Director"
    wing_division_section := some "Admin"
    role_responsibilities := some ["r"]
    activities := some ["a"]
    competencies := some []
    sort_order := some 1
    error_message := none }

/-- Witness for C4_partial_batch_resilience: 61 designations split 30/30/1,
batch 2 raises, and the placeholder record 3 ends COMPLETED with the two
successful batches' single mappings merged. -/
theorem C4_partial_batch_witness :
    (RoleMap.chunks ds_C4 30
        = [List.replicate 30 desig_C4, List.replicate 30 desig_C4,
            List.replicate 1 desig_C4]
      ∧ llm_C4 1 (List.replicate 30 desig_C4) = RoleMap.BatchLlmOutcome.ok [fd1_C4]
      ∧ llm_C4 2 (List.replicate 30 desig_C4) = RoleMap.BatchLlmOutcome.raises "llm boom"
      ∧ llm_C4 3 (List.replicate 1 desig_C4) = RoleMap.BatchLlmOutcome.ok [fd3_C4])
    ∧ (RoleMap.process_batches_parallel llm_C4 ds_C4 30 = [fd1_C4] ++ [fd3_C4]
      ∧ (updated_C4 ∈ (RoleMap.run_role_mapping_job ⟨[rmRec_C5], 9⟩ 3 ctx_C5
            (RoleMap.Pass1Outcome.ok ds_C4) llm_C4).records)
      ∧ updated_C4.status = RoleMap.ProcessingStatus.COMPLETED) :=
  ⟨⟨by decide, by decide, by decide, by decide⟩,
    (C4_partial_batch_resilience llm_C4 ds_C4 (List.replicate 30 desig_C4)
        (List.replicate 30 desig_C4) (List.replicate 1 desig_C4) [fd1_C4] [fd3_C4]
        (by decide) (by decide) (Or.inl ⟨"llm boom", by decide⟩) (by decide)).2.1,
    by decide,
    (C4_partial_batch_resilience llm_C4 ds_C4 (List.replicate 30 desig_C4)
        (List.replicate 30 desig_C4) (List.replicate 1 desig_C4) [fd1_C4] [fd3_C4]
        (by decide) (by decide) (Or.inl ⟨"llm boom", by decide⟩) (by decide)).2.2.2
      ⟨[rmRec_C5], 9⟩ 3 ctx_C5 rmRec_C5 (by decide) (by decide) updated_C4
      (by decide) (by decide)⟩

/-! Claim C8. -/

/-- Filtering away one identifier from a course list whose identifiers are
pairwise distinct removes exactly one element. -/
theorem length_filter_remove_one (l : List CourseRec.CourseEntry)
    (c : CourseRec.CourseEntry) (hc : c ∈ l)
    (hnd : (l.map (fun x => x.identifier)).Nodup) :
    (l.filter (fun x => x.identifier != c.identifier)).length + 1 = l.length := by
  induction l with
  | nil => cases hc
  | cons a t ih =>
    rw [List.map_cons, List.nodup_cons] at hnd
    rcases List.mem_cons.mp hc with rfl | hct
    · have hall : ∀ x ∈ t, (x.identifier != c.identifier) = true := by
        intro x hx
        have hne : x.identifier ≠ c.identifier := by
          intro he
          exact hnd.1 (he ▸ List.mem_map_of_mem _ hx)
        simpa [bne_iff_ne] using hne
      rw [List.filter_cons]
      simp only [bne_self_eq_false, if_false, Bool.false_eq_true]
      rw [List.filter_eq_self.mpr hall]
      simp
    · have hane : (a.identifier != c.identifier) = true := by
        have hne : a.identifier ≠ c.identifier := by
          intro he
          exact hnd.1 (he ▸ List.mem_map_of_mem _ hct)
        simpa [bne_iff_ne] using hne
      rw [List.filter_cons]
      simp only [hane, if_true, List.length_cons]
      have := ih hct hnd.2
      omega

/-- C8: deleting one course identifier from a COMPLETED recommendation record
with 5 pairwise-distinct courses removes exactly that entry (count 4), leaves
status COMPLETED and every other field of the record as well as the other two
stores unchanged; the same delete against an IN_PROGRESS record holding the
course is answered with a conflict and mutates nothing. -/
theorem C8_delete_course_exact
    (st : CourseRec.CourseStores) (cid : String) (rmId uid : Nat)
    (rec0 : CourseRec.RecommendedCourse) (c0 : CourseRec.CourseEntry)
    (hfind : CourseRec.get_by_role_mapping_id st.records rmId uid = some rec0)
    (hc0 : c0 ∈ rec0.filtered_courses)
    (hcid : c0.identifier = cid)
    (hnd : (rec0.filtered_courses.map (fun x => x.identifier)).Nodup)
    (hlen : rec0.filtered_courses.length = 5)
    (hids : (st.records.map (fun r => r.id)).Nodup) :
    (rec0.status = CourseRec.RecommendationStatus.COMPLETED →
      (CourseRec.delete_course st cid rmId uid).1
          = CourseRec.DeleteCourseOutcome.deletedRecommendation 4
      ∧ (∀ r ∈ (CourseRec.delete_course st cid rmId uid).2.records, r.id = rec0.id →
          r.status = CourseRec.RecommendationStatus.COMPLETED
          ∧ r.vector_query = rec0.vector_query
          ∧ r.embedding = rec0.embedding
          ∧ r.actual_courses = rec0.actual_courses
          ∧ r.error_message = rec0.error_message
          ∧ r.user_id = rec0.user_id
          ∧ r.role_mapping_id = rec0.role_mapping_id
          ∧ r.filtered_courses.length = 4
          ∧ (∀ c, c ∈ r.filtered_courses ↔
              (c ∈ rec0.filtered_courses ∧ c.identifier ≠ cid)))
      ∧ (∀ r ∈ (CourseRec.delete_course st cid rmId uid).2.records, r.id ≠ rec0.id →
          r ∈ st.records)
      ∧ (CourseRec.delete_course st cid rmId uid).2.suggestions = st.suggestions
      ∧ (CourseRec.delete_course st cid rmId uid).2.user_added = st.user_added)
    ∧ (rec0.status = CourseRec.RecommendationStatus.IN_PROGRESS →
      CourseRec.delete_course st cid rmId uid
        = (CourseRec.DeleteCourseOutcome.conflict, st)) := by
  have hfound : rec0.filtered_courses.any (fun c => c.identifier == cid) = true := by
    rw [List.any_eq_true]
    exact ⟨c0, hc0, beq_iff_eq.mpr hcid⟩
  have hlen4 : (rec0.filtered_courses.filter
      (fun x => x.identifier != cid)).length = 4 := by
    have h := length_filter_remove_one rec0.filtered_courses c0 hc0 hnd
    rw [hcid] at h
    omega
  have hrec0mem : rec0 ∈ st.records := by
    have := List.find?_some hfind
    exact List.mem_of_find?_eq_some hfind
  constructor
  · intro hst
    have hip : (rec0.status == CourseRec.RecommendationStatus.IN_PROGRESS) = false := by
      rw [hst]; decide
    have hred : CourseRec.delete_course st cid rmId uid
        = (CourseRec.DeleteCourseOutcome.deletedRecommendation
            (rec0.filtered_courses.filter (fun c => c.identifier != cid)).length,
          { st with records := (CourseRec.update_status_and_data st.records rec0.id
              rec0.vector_query rec0.embedding rec0.actual_courses
              (rec0.filtered_courses.filter (fun c => c.identifier != cid))) }) := by
      simp [CourseRec.delete_course, hfind, hfound, hip]
    rw [hred]
    refine ⟨by rw [hlen4], ?_, ?_, rfl, rfl⟩
    · intro r hr hid
      obtain ⟨a, ha, rfl⟩ := List.mem_map.mp hr
      by_cases hcnd : (a.id == rec0.id) = true
      · have haeq : a = rec0 :=
          List.inj_on_of_nodup_map hids ha hrec0mem (beq_iff_eq.mp hcnd)
        subst haeq
        rw [if_pos hcnd]
        refine ⟨rfl, rfl, rfl, rfl, rfl, rfl, rfl, hlen4, ?_⟩
        intro c
        rw [List.mem_filter, bne_iff_ne]
      · rw [if_neg (by simpa using hcnd)] at hid
        exact absurd (beq_iff_eq.mpr hid) (by simpa using hcnd)
    · intro r hr hid
      obtain ⟨a, ha, rfl⟩ := List.mem_map.mp hr
      by_cases hcnd : (a.id == rec0.id) = true
      · exfalso
        apply hid
        rw [if_pos hcnd]
        exact beq_iff_eq.mp hcnd
      · rw [if_neg (by simpa using hcnd)]
        exact ha
  · intro hst
    have hip : (rec0.status == CourseRec.RecommendationStatus.IN_PROGRESS) = true := by
      rw [hst]; decide
    simp [CourseRec.delete_course, hfind, hfound, hip]

/-- Course entry constructor for claim C8's witness payload. -/
def mkEntry_C8 (i : String) : CourseRec.CourseEntry :=
  { identifier := i
    payload := "course " ++ i
    is_public := false
    competencies := none
    duration := none
    organisation := none }

/-- A COMPLETED recommendation record with 5 distinct courses. -/
def recC_C8 : CourseRec.RecommendedCourse :=
  { id := 4
    user_id := 1
    role_mapping_id := 2
    status := CourseRec.RecommendationStatus.COMPLETED
    error_message := none
    vector_query := "vq"
    embedding := some [3, 4]
    actual_courses := [{ name := "n", identifier := "a", distance := 0 }]
    filtered_courses := [mkEntry_C8 "a", mkEntry_C8 "b", mkEntry_C8 "c",
      mkEntry_C8 "d", mkEntry_C8 "e"] }

/-- The same record while IN_PROGRESS. -/
def recP_C8 : CourseRec.RecommendedCourse :=
  { recC_C8 with status := CourseRec.RecommendationStatus.IN_PROGRESS }

/-- The store of claim C8's witness (COMPLETED case). -/
def st_C8 : CourseRec.CourseStores :=
  { records := [recC_C8], suggestions := [], user_added := [] }

/-- The store of claim C8's witness (IN_PROGRESS case). -/
def stP_C8 : CourseRec.CourseStores :=
  { records := [recP_C8], suggestions := [], user_added := [] }

/-- Witness for C8_delete_course_exact: deleting course "c" from the
5-course COMPLETED record reports 4 remaining; the same delete against the
IN_PROGRESS record is a conflict that leaves the store untouched. -/
theorem C8_delete_course_witness :
    (CourseRec.get_by_role_mapping_id st_C8.records 2 1 = some recC_C8
      ∧ mkEntry_C8 "c" ∈ recC_C8.filtered_courses
      ∧ (mkEntry_C8 "c").identifier = "c"
      ∧ (recC_C8.filtered_courses.map (fun x => x.identifier)).Nodup
      ∧ recC_C8.filtered_courses.length = 5
      ∧ (st_C8.records.map (fun r => r.id)).Nodup
      ∧ recC_C8.status = CourseRec.RecommendationStatus.COMPLETED
      ∧ recP_C8.status = CourseRec.RecommendationStatus.IN_PROGRESS)
    ∧ ((CourseRec.delete_course st_C8 "c" 2 1).1
        = CourseRec.DeleteCourseOutcome.deletedRecommendation 4
      ∧ CourseRec.delete_course stP_C8 "c" 2 1
        = (CourseRec.DeleteCourseOutcome.conflict, stP_C8)) :=
  ⟨⟨by decide, by decide, by decide, by decide, by decide, by decide,
      by decide, by decide⟩,
    ((C8_delete_course_exact st_C8 "c" 2 1 recC_C8 (mkEntry_C8 "c") (by decide)
        (by decide) (by decide) (by decide) (by decide) (by decide)).1
      (by decide)).1,
    (C8_delete_course_exact stP_C8 "c" 2 1 recP_C8 (mkEntry_C8 "c") (by decide)
        (by decide) (by decide) (by decide) (by decide) (by decide)).2
      (by decide)⟩

/-! Claim C10. -/

/-- C10: after deleting a file (found, summary not IN_PROGRESS), no stored
meta-summary references the deleted file id any more; every meta-summary that
referenced it either disappears (when it referenced nothing else) or survives
with exactly that id removed, status reset to PENDING and its texts cleared;
meta-summaries that never referenced the file are untouched. -/
theorem C10_delete_file_meta_invariant
    (st : Docs.MetaState) (fid : Nat) (doc : Docs.Document)
    (hfind : st.docs.find? (fun d => d.file_id == fid) = some doc)
    (hnp : doc.summary_status ≠ "IN_PROGRESS")
    (hnd : (st.metas.map (fun m => m.request_id)).Nodup) :
    (∀ m ∈ (Docs.delete_file st fid).2.metas, fid ∉ m.file_ids)
    ∧ (∀ m ∈ st.metas, fid ∈ m.file_ids →
        (((m.file_ids.filter (fun x => x != fid)).isEmpty = true →
          ∀ m2 ∈ (Docs.delete_file st fid).2.metas, m2.request_id ≠ m.request_id)
        ∧ ((m.file_ids.filter (fun x => x != fid)).isEmpty = false →
          { m with
            file_ids := m.file_ids.filter (fun x => x != fid)
            status := "PENDING"
            summary_text := none
            error_message := none } ∈ (Docs.delete_file st fid).2.metas)))
    ∧ (∀ m ∈ st.metas, fid ∉ m.file_ids → m ∈ (Docs.delete_file st fid).2.metas) := by
  have hip : (doc.summary_status == "IN_PROGRESS") = false := by
    rw [beq_eq_false_iff_ne]
    exact hnp
  have hred : (Docs.delete_file st fid).2
      = { docs := st.docs.filter (fun d => d.file_id != fid)
          metas := st.metas.filterMap (Docs.cleanupMeta fid) } := by
    simp [Docs.delete_file, hfind, hip]
  have hpres : ∀ m0 m2, Docs.cleanupMeta fid m0 = some m2 →
      m2.request_id = m0.request_id := by
    intro m0 m2 hsome
    simp only [Docs.cleanupMeta] at hsome
    by_cases h0 : fid ∈ m0.file_ids
    · rw [if_pos h0] at hsome
      by_cases hempty : (m0.file_ids.filter (fun x => x != fid)).isEmpty = true
      · rw [if_pos hempty] at hsome
        cases hsome
      · rw [if_neg hempty] at hsome
        have := Option.some.inj hsome
        rw [← this]
    · rw [if_neg h0] at hsome
      have := Option.some.inj hsome
      rw [← this]
  rw [hred]
  refine ⟨?_, ?_, ?_⟩
  · intro m hm
    obtain ⟨m0, hm0, hsome⟩ := List.mem_filterMap.mp hm
    simp only [Docs.cleanupMeta] at hsome
    by_cases h0 : fid ∈ m0.file_ids
    · rw [if_pos h0] at hsome
      by_cases hempty : (m0.file_ids.filter (fun x => x != fid)).isEmpty = true
      · rw [if_pos hempty] at hsome
        cases hsome
      · rw [if_neg hempty] at hsome
        have hm2 := Option.some.inj hsome
        rw [← hm2]
        intro hmem
        have := (List.mem_filter.mp hmem).2
        simp at this
    · rw [if_neg h0] at hsome
      have hm2 := Option.some.inj hsome
      rw [← hm2]
      exact h0
  · intro m hm hfidm
    constructor
    · intro hem m2 hm2 heq
      obtain ⟨m0, hm0, hsome⟩ := List.mem_filterMap.mp hm2
      have hpr := hpres m0 m2 hsome
      have hm0m : m0 = m := by
        apply List.inj_on_of_nodup_map hnd hm0 hm
        rw [← hpr]
        exact heq
      subst hm0m
      simp only [Docs.cleanupMeta] at hsome
      rw [if_pos hfidm, if_pos hem] at hsome
      cases hsome
    · intro hem
      apply List.mem_filterMap.mpr
      refine ⟨m, hm, ?_⟩
      simp only [Docs.cleanupMeta]
      rw [if_pos hfidm, if_neg (by simp [hem])]
  · intro m hm hnot
    apply List.mem_filterMap.mpr
    refine ⟨m, hm, ?_⟩
    simp only [Docs.cleanupMeta]
    rw [if_neg hnot]

/-- The document deleted in claim C10's witness. -/
def doc_C10 : Docs.Document :=
  { file_id := 1
    state_center_id := "sc"
    department_id := none
    filename := "a.pdf"
    stored_path := "files/a.pdf"
    summary_status := "COMPLETED"
    summary_text := some "s"
    summary_error := none
    last_summary_request_id := none }

/-- A meta-summary referencing only the deleted file. -/
def m1_C10 : Docs.MetaSummaryRec :=
  { request_id := 10
    state_center_id := some "sc"
    department_id := none
    file_ids := [1]
    status := "COMPLETED"
    summary_text := some "meta1"
    error_message := none }

/-- A meta-summary referencing the deleted file and another one. -/
def m2_C10 : Docs.MetaSummaryRec :=
  { request_id := 11
    state_center_id := some "sc"
    department_id := none
    file_ids := [1, 2]
    status := "COMPLETED"
    summary_text := some "meta2"
    error_message := none }

/-- A meta-summary not referencing the deleted file. -/
def m3_C10 : Docs.MetaSummaryRec :=
  { request_id := 12
    state_center_id := some "sc"
    department_id := none
    file_ids := [2]
    status := "COMPLETED"
    summary_text := some "meta3"
    error_message := none }

/-- The store of claim C10's witness. -/
def st_C10 : Docs.MetaState :=
  { docs := [doc_C10], metas := [m1_C10, m2_C10, m3_C10] }

/-- Witness for C10_delete_file_meta_invariant: deleting file 1 removes
meta 10 outright, resets meta 11 to PENDING with file_ids [2], and keeps
meta 12 untouched. -/
theorem C10_delete_file_witness :
    ([doc_C10].find? (fun d => d.file_id == 1) = some doc_C10
      ∧ doc_C10.summary_status ≠ "IN_PROGRESS"
      ∧ (st_C10.metas.map (fun m => m.request_id)).Nodup)
    ∧ (({ m2_C10 with
          file_ids := m2_C10.file_ids.filter (fun x => x != 1)
          status := "PENDING"
          summary_text := none
          error_message := none } ∈ (Docs.delete_file st_C10 1).2.metas)
      ∧ ((1 : Nat) ∉ ({ m2_C10 with
          file_ids := m2_C10.file_ids.filter (fun x => x != 1)
          status := "PENDING"
          summary_text := none
          error_message := none } : Docs.MetaSummaryRec).file_ids)
      ∧ ({ m2_C10 with
          file_ids := m2_C10.file_ids.filter (fun x => x != 1)
          status := "PENDING"
          summary_text := none
          error_message := none } : Docs.MetaSummaryRec).request_id
            ≠ m1_C10.request_id
      ∧ m3_C10 ∈ (Docs.delete_file st_C10 1).2.metas) := by
  have h := C10_delete_file_meta_invariant st_C10 1 doc_C10 (by decide) (by decide)
    (by decide)
  have hm2 := (h.2.1 m2_C10 (by decide) (by decide)).2 (by decide)
  refine ⟨⟨by decide, by decide, by decide⟩, hm2, h.1 _ hm2, ?_, ?_⟩
  · exact (h.2.1 m1_C10 (by decide) (by decide)).1 (by decide) _ hm2
  · exact h.2.2 m3_C10 (by decide) (by decide)
